import Mathlib

/-!
Shallow embedding of `src/src/nix/verify.cc` (the `nix verify-paths` /
`nix verify-store` commands): per-path content and trust verification,
signature aggregation across the local store and substituters, aggregate
counters and the exit-status bitmask.

Modelling choices:
- Store paths and signature texts are `String`, as in the source.
- Hashes are `Nat`: the hashing primitive is an external collaborator, so
  `narFromPath` directly yields the recomputed hash of the streamed content
  (or an error standing for an I/O failure of the stream).
- C++ exceptions become `Except Unit`; every `try/catch` in the source is an
  explicit `match` on the `Except` value.
- `info.checkSignature(publicKeys, sig)` is an opaque predicate
  `checkSig : String → Bool` (the public-key set is baked into it).
- Instrumentation fields (`cryptoCalls`, number of substituters queried) count
  observable external effects so that short-circuiting claims are statable.
-/

namespace NixVerify

/-- Path metadata as returned by `queryPathInfo`: the recorded NAR hash, the
ultimate flag and the set of signature strings (`ValidPathInfo` fields used by
`verify.cc`). -/
structure PathInfo where
  narHash : Nat
  ultimate : Bool
  sigs : List String
deriving DecidableEq, Repr

/-- A substituter store: `isValidPath` and `queryPathInfo`, each of which may
throw (modelled as `Except Unit`). -/
structure Subst where
  isValidPath : String → Except Unit Bool
  queryPathInfo : String → Except Unit PathInfo

/-- The primary store: `queryPathInfo` plus `narFromPath` composed with the
`HashSink`, yielding the recomputed content hash. Either may throw. -/
structure Store where
  queryPathInfo : String → Except Unit PathInfo
  narFromPath : String → Except Unit Nat

/-- The `MixVerify` configuration fields. -/
structure Config where
  noContents : Bool
  noTrust : Bool
  sigsNeeded : Nat
  substituterUris : List String

/-- Modelled from the spec: the value of `sigsNeeded` when the `--sigs-needed`
flag is absent. The flag machinery (`mkIntFlag` in `args.hh`) is not part of
this repository snapshot, and the member declaration in `verify.cc` line 18 has
no initializer; the spec states the default is 0 (meaning "1 unless
ultimate"). -/
def defaultSigsNeeded : Nat := 0

/-- State threaded through signature evaluation for one path: the dedup set
`sigsSeen` (insertion order kept as a list), the running count `validSigs`,
and an instrumentation count of `checkSignature` invocations. -/
structure SigState where
  sigsSeen : List String
  validSigs : Nat
  cryptoCalls : Nat
deriving DecidableEq, Repr

/-- The `doSigs` lambda (verify.cc lines 103-110): for each signature not in
`sigsSeen`, insert it, invoke the cryptographic check, and count it as valid
when the check succeeds. -/
def doSigs (checkSig : String → Bool) (sigs : List String) (st : SigState) : SigState :=
  sigs.foldl
    (fun st sig =>
      if st.sigsSeen.contains sig then st
      else
        { sigsSeen := st.sigsSeen ++ [sig]
          validSigs := st.validSigs + (if checkSig sig then 1 else 0)
          cryptoCalls := st.cryptoCalls + 1 })
    st

/-- The body of the `try` block inside the substituter loop (verify.cc lines
117-118): check `isValidPath`; when absent yield nothing, otherwise fetch the
metadata and yield its signatures. Errors of either call propagate. -/
def substSigs (s : Subst) (storePath : String) : Except Unit (Option (List String)) :=
  match s.isValidPath storePath with
  | .error e => .error e
  | .ok false => .ok none
  | .ok true =>
    match s.queryPathInfo storePath with
    | .error e => .error e
    | .ok info => .ok (some info.sigs)

/-- The substituter loop (verify.cc lines 114-122): break as soon as
`validSigs >= actualSigsNeeded`; a query error is caught, reported and skipped.
Returns the final state and the number of substituters actually queried. -/
def substLoop (checkSig : String → Bool) (storePath : String) (actualSigsNeeded : Nat) :
    List Subst → SigState → SigState × Nat
  | [], st => (st, 0)
  | s :: rest, st =>
    if actualSigsNeeded ≤ st.validSigs then (st, 0)
    else
      let st2 :=
        match substSigs s storePath with
        | .error _ => st
        | .ok none => st
        | .ok (some sigs) => doSigs checkSig sigs st
      let r := substLoop checkSig storePath actualSigsNeeded rest st2
      (r.1, r.2 + 1)

/-- `sigsNeeded ? sigsNeeded : 1` (verify.cc line 100). -/
def actualSigsNeeded (sigsNeeded : Nat) : Nat :=
  if sigsNeeded ≠ 0 then sigsNeeded else 1

/-- Outcome of the trust check for one path, with instrumentation: whether the
path is good, how many cryptographic signature checks ran, how many
substituters were queried, and the final valid-signature count. -/
structure TrustResult where
  good : Bool
  cryptoCalls : Nat
  queried : Nat
  validSigs : Nat
deriving DecidableEq, Repr

/-- The non-ultimate branch of the trust check (verify.cc lines 97-126) with
the required signature count passed explicitly: evaluate local signatures,
then iterate substituters, then compare against the requirement. -/
def trustCheckBody (checkSig : String → Bool) (req : Nat) (info : PathInfo)
    (storePath : String) (subs : List Subst) : TrustResult :=
  let st0 := doSigs checkSig info.sigs ⟨[], 0, 0⟩
  let r := substLoop checkSig storePath req subs st0
  ⟨decide (req ≤ r.1.validSigs), r.1.cryptoCalls, r.2, r.1.validSigs⟩

/-- The trust check (verify.cc lines 90-133, the `!noTrust` block): an ultimate
path with `sigsNeeded` 0 is immediately good with no signature work; otherwise
run `trustCheckBody` with `actualSigsNeeded`. -/
def trustCheck (checkSig : String → Bool) (sigsNeeded : Nat) (info : PathInfo)
    (storePath : String) (subs : List Subst) : TrustResult :=
  if info.ultimate = true ∧ sigsNeeded = 0 then ⟨true, 0, 0, 0⟩
  else trustCheckBody checkSig (actualSigsNeeded sigsNeeded) info storePath subs

/-- Outcome of one `doPath` task. -/
structure PathResult where
  corrupted : Bool
  untrusted : Bool
  done : Bool
  failed : Bool
deriving DecidableEq, Repr

/-- The content check (verify.cc lines 74-88): when enabled, recompute the NAR
hash and compare with the recorded one; a stream error propagates as a task
failure, distinct from a mismatch. -/
def contentCheck (cfg : Config) (store : Store) (storePath : String) (info : PathInfo) :
    Except Unit Bool :=
  if cfg.noContents then .ok false
  else
    match store.narFromPath storePath with
    | .error e => .error e
    | .ok h => .ok (h != info.narHash)

/-- The `doPath` task body (verify.cc lines 66-143): fetch metadata, run the
content check, run the trust check; any error escaping the body is caught at
the task boundary and turns the path into a failure instead of a completion. -/
def doPath (cfg : Config) (checkSig : String → Bool) (store : Store)
    (subs : List Subst) (storePath : String) : PathResult :=
  match store.queryPathInfo storePath with
  | .error _ => ⟨false, false, false, true⟩
  | .ok info =>
    match contentCheck cfg store storePath info with
    | .error _ => ⟨false, false, false, true⟩
    | .ok corr =>
      let untr :=
        if cfg.noTrust then false
        else !(trustCheck checkSig cfg.sigsNeeded info storePath subs).good
      ⟨corr, untr, true, false⟩

/-- The aggregate counters (verify.cc lines 39-42). -/
structure Counters where
  untrusted : Nat
  corrupted : Nat
  done : Nat
  failed : Nat
deriving DecidableEq, Repr

/-- All-zero counters at run start. -/
def initCounters : Counters := ⟨0, 0, 0, 0⟩

/-- Fold one task outcome into the counters, exactly as the source updates
them: `untrusted++`, `done++`, `failed++` are increments, but line 82 is the
assignment `corrupted = 1`, not an increment. -/
def applyResult (c : Counters) (r : PathResult) : Counters :=
  { untrusted := c.untrusted + (if r.untrusted then 1 else 0)
    corrupted := if r.corrupted then 1 else c.corrupted
    done := c.done + (if r.done then 1 else 0)
    failed := c.failed + (if r.failed then 1 else 0) }

/-- The run of all per-path tasks, folded sequentially. The thread pool runs
them concurrently, but every counter update is order-independent (increments
commute, and the `corrupted = 1` assignment always stores the same value), so
the sequential fold computes the same final counters as any interleaving. -/
def runCounters (cfg : Config) (checkSig : String → Bool) (store : Store)
    (subs : List Subst) (paths : List String) : Counters :=
  paths.foldl (fun c p => applyResult c (doPath cfg checkSig store subs p)) initCounters

/-- The exit status thrown at run end (verify.cc lines 154-157). -/
def exitCode (c : Counters) : Nat :=
  (if c.corrupted ≠ 0 then 1 else 0) |||
  (if c.untrusted ≠ 0 then 2 else 0) |||
  (if c.failed ≠ 0 then 4 else 0)

/-- Opening of all configured substituters (verify.cc lines 33-35): the first
`openStoreAt` failure propagates out of `verifyPaths`. -/
def openAll (openStoreAt : String → Except Unit Subst) :
    List String → Except Unit (List Subst)
  | [] => .ok []
  | u :: us =>
    match openStoreAt u with
    | .error e => .error e
    | .ok s =>
      match openAll openStoreAt us with
      | .error e => .error e
      | .ok ss => .ok (s :: ss)

/-- `verifyPaths` (verify.cc lines 29-158): open every substituter eagerly,
run all per-path tasks, and return the final counters together with the exit
code. An `openStoreAt` failure escapes before any path is processed. -/
def verifyPaths (openStoreAt : String → Except Unit Subst) (cfg : Config)
    (checkSig : String → Bool) (store : Store) (paths : List String) :
    Except Unit (Counters × Nat) :=
  match openAll openStoreAt cfg.substituterUris with
  | .error e => .error e
  | .ok subs =>
    let c := runCounters cfg checkSig store subs paths
    .ok (c, exitCode c)

/-- Fixture for corruption runs: every path has recorded hash 10 but recomputed
hash 11, so the content check finds a mismatch on every path. -/
def c1Store : Store :=
  { queryPathInfo := fun _ => .ok ⟨10, true, []⟩
    narFromPath := fun _ => .ok 11 }

/-- Fixture configuration: content check on, trust check off, no substituters. -/
def c1Cfg : Config := ⟨false, true, 0, []⟩

/-- Fixture: a substituter that holds every path and offers exactly one
signature string. -/
def mkSub (sig : String) : Subst :=
  { isValidPath := fun _ => .ok true
    queryPathInfo := fun _ => .ok ⟨0, false, [sig]⟩ }

/-- Fixture: a substituter whose query always throws. -/
def errSub : Subst :=
  { isValidPath := fun _ => .error ()
    queryPathInfo := fun _ => .error () }

/-- Fixture: a store whose paths all pass the content check and carry no local
signatures and no ultimate flag. -/
def c7Store : Store :=
  { queryPathInfo := fun _ => .ok ⟨10, false, []⟩
    narFromPath := fun _ => .ok 10 }

/-- Fixture: a store where the content stream of path "bad" raises a read
error while every other path verifies cleanly as ultimate. -/
def c8Store : Store :=
  { queryPathInfo := fun _ => .ok ⟨5, true, []⟩
    narFromPath := fun p => if p = "bad" then .error () else .ok 5 }

/-- Helper: the ternary in verify.cc line 100 computes the maximum of the
configured threshold and 1. -/
theorem actualSigsNeeded_eq_max (n : Nat) : actualSigsNeeded n = Nat.max n 1 := by
  cases n with
  | zero => rfl
  | succ m =>
    unfold actualSigsNeeded
    rw [if_pos (Nat.succ_ne_zero m)]
    exact (Nat.max_eq_left (Nat.succ_le_succ (Nat.zero_le m))).symm

/-- Helper: a task never reports both completion and failure, and always
reports one of them. -/
theorem doPath_failed_eq_not_done (cfg : Config) (checkSig : String → Bool) (store : Store)
    (subs : List Subst) (p : String) :
    (doPath cfg checkSig store subs p).failed = !(doPath cfg checkSig store subs p).done := by
  unfold doPath
  split
  · rfl
  · split
    · rfl
    · rfl

/-- Helper: folding tasks over a path list adds exactly the number of paths to
the sum of the done and failed counters. -/
theorem runCounters_aux (cfg : Config) (checkSig : String → Bool) (store : Store)
    (subs : List Subst) (paths : List String) :
    ∀ c : Counters,
      (paths.foldl (fun c p => applyResult c (doPath cfg checkSig store subs p)) c).done
        + (paths.foldl (fun c p => applyResult c (doPath cfg checkSig store subs p)) c).failed
      = c.done + c.failed + paths.length := by
  induction paths with
  | nil => intro c; simp
  | cons p ps ih =>
    intro c
    simp only [List.foldl_cons, List.length_cons]
    rw [ih]
    have h := doPath_failed_eq_not_done cfg checkSig store subs p
    cases hd : (doPath cfg checkSig store subs p).done <;>
      rw [hd] at h <;> simp [applyResult, hd, h] <;> omega

/-- Helper: the exit-status bitmask written with bitwise or, rewritten as a
sum of disjoint bit contributions, with the bit and zero characterizations. -/
theorem exitCode_spec (c : Counters) :
    exitCode c
        = (if 0 < c.corrupted then 1 else 0) + (if 0 < c.untrusted then 2 else 0)
          + (if 0 < c.failed then 4 else 0)
      ∧ ((exitCode c).testBit 0 = true ↔ 0 < c.corrupted)
      ∧ ((exitCode c).testBit 1 = true ↔ 0 < c.untrusted)
      ∧ ((exitCode c).testBit 2 = true ↔ 0 < c.failed)
      ∧ (exitCode c = 0 ↔ c.corrupted = 0 ∧ c.untrusted = 0 ∧ c.failed = 0) := by
  by_cases h : c.corrupted = 0 <;> by_cases h2 : c.untrusted = 0 <;>
    by_cases h3 : c.failed = 0 <;>
      simp [exitCode, h, h2, h3, Nat.pos_iff_ne_zero] <;> decide

/-- Helper: when some configured substituter fails to open, opening the whole
list fails. -/
theorem openAll_error (openStoreAt : String → Except Unit Subst) :
    ∀ (us : List String) (uri : String), uri ∈ us → openStoreAt uri = .error () →
      openAll openStoreAt us = .error () := by
  intro us
  induction us with
  | nil => intro uri h herr; exact absurd h (List.not_mem_nil uri)
  | cons u rest ih =>
    intro uri h herr
    rcases List.mem_cons.mp h with h' | hmem
    · subst h'
      simp [openAll, herr]
    · cases ho : openStoreAt u with
      | error e => cases e; simp [openAll, ho]
      | ok s => simp [openAll, ho, ih uri hmem herr]

/-- C1: each category counter is supposed to be incremented once per
applicable path, so a run over two corrupted paths should end with the
corrupted counter at 2; but verify.cc line 82 executes the assignment
`corrupted = 1` instead of an increment, so the run ends with corrupted = 1
while done = 2 confirms both paths were checked and each was detected as
modified. -/
theorem C1_corrupted_assigned_not_incremented :
    (doPath c1Cfg (fun _ => false) c1Store [] "p1").corrupted = true
    ∧ (doPath c1Cfg (fun _ => false) c1Store [] "p2").corrupted = true
    ∧ verifyPaths (fun _ => .error ()) c1Cfg (fun _ => false) c1Store ["p1", "p2"]
        = .ok (⟨0, 1, 2, 0⟩, 1) :=
  ⟨by decide, by decide, rfl⟩

/-- C2: for every run, the terminal outcome is the bitmask with bit 0 set iff
corrupted is positive, bit 1 iff untrusted is positive, bit 2 iff failed is
positive, equal to the sum of contributions 1, 2 and 4, and equal to 0 iff no
problem was found. -/
theorem C2_exit_status_bitmask (cfg : Config) (checkSig : String → Bool) (store : Store)
    (subs : List Subst) (paths : List String) :
    exitCode (runCounters cfg checkSig store subs paths)
        = (if 0 < (runCounters cfg checkSig store subs paths).corrupted then 1 else 0)
          + (if 0 < (runCounters cfg checkSig store subs paths).untrusted then 2 else 0)
          + (if 0 < (runCounters cfg checkSig store subs paths).failed then 4 else 0)
      ∧ ((exitCode (runCounters cfg checkSig store subs paths)).testBit 0 = true
          ↔ 0 < (runCounters cfg checkSig store subs paths).corrupted)
      ∧ ((exitCode (runCounters cfg checkSig store subs paths)).testBit 1 = true
          ↔ 0 < (runCounters cfg checkSig store subs paths).untrusted)
      ∧ ((exitCode (runCounters cfg checkSig store subs paths)).testBit 2 = true
          ↔ 0 < (runCounters cfg checkSig store subs paths).failed)
      ∧ (exitCode (runCounters cfg checkSig store subs paths) = 0
          ↔ (runCounters cfg checkSig store subs paths).corrupted = 0
            ∧ (runCounters cfg checkSig store subs paths).untrusted = 0
            ∧ (runCounters cfg checkSig store subs paths).failed = 0) :=
  exitCode_spec (runCounters cfg checkSig store subs paths)

/-- C3: for every run that finishes, the done counter plus the failed counter
equals the number of paths submitted. -/
theorem C3_done_plus_failed_eq_paths (cfg : Config) (checkSig : String → Bool)
    (store : Store) (subs : List Subst) (paths : List String) :
    (runCounters cfg checkSig store subs paths).done
      + (runCounters cfg checkSig store subs paths).failed = paths.length := by
  have h := runCounters_aux cfg checkSig store subs paths initCounters
  simpa [runCounters, initCounters] using h

/-- C4: once the running valid-signature count reaches the requirement, the
substituter loop stops at once and queries nothing further; concretely, with
threshold 2, no local signatures, and three configured substituters each
holding one distinct valid signature, the path is trusted and only two
substituters are queried. -/
theorem C4_threshold_short_circuits :
    (∀ (checkSig : String → Bool) (storePath : String) (need : Nat)
        (subs : List Subst) (st : SigState), need ≤ st.validSigs →
        substLoop checkSig storePath need subs st = (st, 0))
    ∧ trustCheck (fun _ => true) 2 ⟨0, false, []⟩ "p" [mkSub "s1", mkSub "s2", mkSub "s3"]
        = ⟨true, 2, 2, 2⟩ := by
  refine ⟨?_, by decide⟩
  intro checkSig storePath need subs st h
  cases subs with
  | nil => rfl
  | cons s rest => simp [substLoop, h]

/-- Witness for C4 at a concrete state already past the requirement. -/
theorem C4_threshold_short_circuits_witness :
    substLoop (fun _ => true) "p" 1 [mkSub "s1"] ⟨[], 3, 0⟩ = (⟨[], 3, 0⟩, 0) :=
  C4_threshold_short_circuits.1 (fun _ => true) "p" 1 [mkSub "s1"] ⟨[], 3, 0⟩ (by decide)

/-- C5: a signature string already in the shared dedup set contributes
nothing when it is evaluated again; concretely, with the same signature
string supplied both locally and by a substituter and a threshold of 2, the
cryptographic check runs once, the count stays at 1, and the path is not
trusted. -/
theorem C5_signature_deduplicated_across_sources :
    (∀ (checkSig : String → Bool) (sig : String) (st : SigState),
        st.sigsSeen.contains sig = true → doSigs checkSig [sig] st = st)
    ∧ trustCheck (fun _ => true) 2 ⟨0, false, ["sigA"]⟩ "p" [mkSub "sigA"]
        = ⟨false, 1, 1, 1⟩ := by
  refine ⟨?_, by decide⟩
  intro checkSig sig st h
  have hmem : sig ∈ st.sigsSeen := by simpa using h
  simp [doSigs, hmem]

/-- Witness for C5 at a concrete already-seen signature. -/
theorem C5_signature_deduplicated_across_sources_witness :
    doSigs (fun _ => true) ["sigA"] ⟨["sigA"], 1, 1⟩ = ⟨["sigA"], 1, 1⟩ :=
  C5_signature_deduplicated_across_sources.1 (fun _ => true) "sigA" ⟨["sigA"], 1, 1⟩
    (by decide)

/-- C6: an ultimate path under threshold 0 is immediately trusted, with zero
cryptographic checks and zero substituter queries. -/
theorem C6_ultimate_trusted_without_crypto (checkSig : String → Bool) (n : Nat)
    (info : PathInfo) (storePath : String) (subs : List Subst)
    (hu : info.ultimate = true) (hn : n = 0) :
    trustCheck checkSig n info storePath subs = ⟨true, 0, 0, 0⟩ := by
  unfold trustCheck
  rw [if_pos ⟨hu, hn⟩]

/-- Witness for C6 at a concrete ultimate path. -/
theorem C6_ultimate_trusted_without_crypto_witness :
    trustCheck (fun _ => false) 0 ⟨0, true, ["x"]⟩ "p" [errSub] = ⟨true, 0, 0, 0⟩ :=
  C6_ultimate_trusted_without_crypto (fun _ => false) 0 ⟨0, true, ["x"]⟩ "p" [errSub]
    rfl rfl

/-- C7: a substituter whose query throws is skipped without changing the
signature state, and iteration continues with the rest; concretely, with one
erroring substituter followed by one good substituter, the path is trusted
and neither failed nor untrusted is set, while with only the erroring
substituter the threshold stays unmet so the path is untrusted but still not
failed. -/
theorem C7_substituter_error_nonfatal :
    (∀ (checkSig : String → Bool) (storePath : String) (need : Nat) (s : Subst)
        (rest : List Subst) (st : SigState),
        st.validSigs < need → substSigs s storePath = .error () →
        substLoop checkSig storePath need (s :: rest) st
          = ((substLoop checkSig storePath need rest st).1,
             (substLoop checkSig storePath need rest st).2 + 1))
    ∧ doPath ⟨false, false, 1, []⟩ (fun _ => true) c7Store [errSub, mkSub "s1"] "p"
        = ⟨false, false, true, false⟩
    ∧ doPath ⟨false, false, 1, []⟩ (fun _ => true) c7Store [errSub] "p"
        = ⟨false, true, true, false⟩ := by
  refine ⟨?_, by decide, by decide⟩
  intro checkSig storePath need s rest st hlt herr
  simp [substLoop, Nat.not_le.mpr hlt, herr]

/-- Witness for C7 at a concrete erroring substituter. -/
theorem C7_substituter_error_nonfatal_witness :
    substLoop (fun _ => true) "p" 1 [errSub] ⟨[], 0, 0⟩
      = ((substLoop (fun _ => true) "p" 1 [] ⟨[], 0, 0⟩).1,
         (substLoop (fun _ => true) "p" 1 [] ⟨[], 0, 0⟩).2 + 1) :=
  C7_substituter_error_nonfatal.1 (fun _ => true) "p" 1 errSub [] ⟨[], 0, 0⟩
    (by decide) rfl

/-- C8: an error escaping the task body, whether from the metadata query or
the content stream, is caught at the task boundary and turns the path into a
failure instead of a completion, with no corruption or distrust recorded for
it; concretely, a run over a path with a broken content stream and a healthy
sibling ends with done = 1 and failed = 1 and exit status 4. -/
theorem C8_task_boundary_catches_errors :
    (∀ (cfg : Config) (checkSig : String → Bool) (store : Store) (subs : List Subst)
        (p : String), store.queryPathInfo p = .error () →
        doPath cfg checkSig store subs p = ⟨false, false, false, true⟩)
    ∧ (∀ (cfg : Config) (checkSig : String → Bool) (store : Store) (subs : List Subst)
        (p : String) (info : PathInfo), cfg.noContents = false →
        store.queryPathInfo p = .ok info → store.narFromPath p = .error () →
        doPath cfg checkSig store subs p = ⟨false, false, false, true⟩)
    ∧ runCounters ⟨false, false, 0, []⟩ (fun _ => false) c8Store [] ["bad", "good"]
        = ⟨0, 0, 1, 1⟩
    ∧ exitCode (runCounters ⟨false, false, 0, []⟩ (fun _ => false) c8Store []
        ["bad", "good"]) = 4 := by
  refine ⟨?_, ?_, by decide, by decide⟩
  · intro cfg checkSig store subs p h
    simp [doPath, h]
  · intro cfg checkSig store subs p info hnc hq hn
    simp [doPath, hq, contentCheck, hnc, hn]

/-- Witness for C8 at a concrete store whose metadata query and content
stream both throw. -/
theorem C8_task_boundary_catches_errors_witness :
    doPath ⟨false, false, 0, []⟩ (fun _ => false)
        ⟨fun _ => .error (), fun _ => .error ()⟩ [] "p"
      = ⟨false, false, false, true⟩ :=
  C8_task_boundary_catches_errors.1 ⟨false, false, 0, []⟩ (fun _ => false)
    ⟨fun _ => .error (), fun _ => .error ()⟩ [] "p" rfl

/-- C9: the threshold defaults to 0 when the flag is absent, and for every
non-ultimate path the required number of valid signatures is the maximum of
the configured threshold and 1. -/
theorem C9_default_zero_means_one :
    defaultSigsNeeded = 0
    ∧ (∀ n : Nat, actualSigsNeeded n = Nat.max n 1)
    ∧ (∀ (checkSig : String → Bool) (n : Nat) (info : PathInfo) (storePath : String)
        (subs : List Subst), info.ultimate = false →
        trustCheck checkSig n info storePath subs
          = trustCheckBody checkSig (Nat.max n 1) info storePath subs) := by
  refine ⟨rfl, actualSigsNeeded_eq_max, ?_⟩
  intro checkSig n info storePath subs hu
  unfold trustCheck
  rw [if_neg (by simp [hu]), actualSigsNeeded_eq_max]

/-- Witness for C9 at a concrete non-ultimate path. -/
theorem C9_default_zero_means_one_witness :
    trustCheck (fun _ => true) 0 ⟨0, false, ["s"]⟩ "p" []
      = trustCheckBody (fun _ => true) (Nat.max 0 1) ⟨0, false, ["s"]⟩ "p" [] :=
  C9_default_zero_means_one.2.2 (fun _ => true) 0 ⟨0, false, ["s"]⟩ "p" [] rfl

/-- C10: substituters are opened before any path is verified, so a failure to
open any one of them makes the whole run abort with an error, for every
configuration including one with the trust check disabled, with no counters
and no exit bitmask ever produced. -/
theorem C10_substituter_open_failure_aborts (openStoreAt : String → Except Unit Subst)
    (cfg : Config) (checkSig : String → Bool) (store : Store) (paths : List String)
    (uri : String) (hmem : uri ∈ cfg.substituterUris)
    (herr : openStoreAt uri = .error ()) :
    verifyPaths openStoreAt cfg checkSig store paths = .error () := by
  unfold verifyPaths
  rw [openAll_error openStoreAt cfg.substituterUris uri hmem herr]

/-- Witness for C10 with the trust check disabled and one unreachable
substituter. -/
theorem C10_substituter_open_failure_aborts_witness :
    verifyPaths (fun _ => .error ()) ⟨false, true, 0, ["u"]⟩ (fun _ => false) c1Store
        ["p1"] = .error () :=
  C10_substituter_open_failure_aborts (fun _ => .error ()) ⟨false, true, 0, ["u"]⟩
    (fun _ => false) c1Store ["p1"] "u" (List.mem_singleton.mpr rfl) rfl

end NixVerify
